import Mathlib

/-!
Verification of the billing invariant / usage-ledger subsystem of the
Fairlx repository (files `src/lib/billing-primitives.ts`,
`src/lib/invariants.ts`, `src/lib/alert-evaluation-job.ts`).

Shallow embedding conventions:
- ISO timestamp strings are modelled as `Int` epoch milliseconds
  (ISO-8601 UTC strings compare lexicographically in timestamp order,
  so `Int` order is faithful).
- JS numbers are modelled as `ℚ` (the arithmetic in scope is addition,
  division by constants, and comparisons).
- Database reads are abstracted: a function that resolves a billing
  account via I/O takes the resolved `Option BillingAccount` as an
  argument; a function that reads or writes one account document takes
  and returns an `Option BillingAccount` store state.
- A thrown exception is modelled as `Except.error`.
-/

namespace Fairlx

/-- Billing status enumeration from features/billing/types. -/
inductive BillingStatus where
  | ACTIVE
  | DUE
  | SUSPENDED
deriving DecidableEq, Repr, Fintype

/-- Billing account document (the fields used by this subsystem). -/
structure BillingAccount where
  id : String
  billingStatus : BillingStatus
  billingCycleStart : Int
  billingCycleEnd : Int
  isBillingCycleLocked : Bool
  billingCycleLockedAt : Option Int
  gracePeriodEnd : Option Int
deriving DecidableEq, Repr

/-- Error codes of `BillingError` in billing-primitives.ts. -/
inductive BillingErrorCode where
  | BILLING_SUSPENDED
  | BILLING_DUE
  | BILLING_NOT_FOUND
  | BILLING_CYCLE_LOCKED
  | USAGE_WRITE_BLOCKED
deriving DecidableEq, Repr

/-- The `BillingError` exception class. -/
structure BillingError where
  code : BillingErrorCode
  message : String
  billingAccountId : Option String
  billingStatus : Option BillingStatus
deriving DecidableEq, Repr

/-- The error code carried by an `Except` result, `none` when it succeeded. -/
def errCodeOf {α : Type} : Except BillingError α → Option BillingErrorCode
  | .error e => some e.code
  | .ok _ => none

-- ============================================================================
-- STATUS TRANSITION VALIDATION (billing-primitives.ts, VALID_STATUS_TRANSITIONS)
-- ============================================================================

/-- The `VALID_STATUS_TRANSITIONS` table:
ACTIVE -> [DUE]; DUE -> [ACTIVE, SUSPENDED]; SUSPENDED -> [ACTIVE]. -/
def VALID_STATUS_TRANSITIONS : BillingStatus → List BillingStatus
  | .ACTIVE => [.DUE]
  | .DUE => [.ACTIVE, .SUSPENDED]
  | .SUSPENDED => [.ACTIVE]

/-- Function `assertValidStatusTransition(from, to)`: same status is a no-op;
otherwise the target must be listed in `VALID_STATUS_TRANSITIONS[from]`,
else an `Error` is thrown. -/
def assertValidStatusTransition (src dst : BillingStatus) : Except String Unit :=
  if src = dst then
    .ok ()
  else if dst ∈ VALID_STATUS_TRANSITIONS src then
    .ok ()
  else
    .error "Invalid billing status transition"

/-- Claim C1: for every pair of billing statuses, `assertValidStatusTransition`
returns without error iff the target equals the source or is an allowed
target of the source per the table ACTIVE→{DUE}, DUE→{ACTIVE, SUSPENDED},
SUSPENDED→{ACTIVE}; every other pair (e.g. ACTIVE→SUSPENDED, SUSPENDED→DUE)
throws. -/
theorem assertValidStatusTransition_ok_iff :
    ∀ src dst : BillingStatus,
      ((assertValidStatusTransition src dst).isOk = true ↔
        (dst = src ∨ dst ∈ VALID_STATUS_TRANSITIONS src)) ∧
      (assertValidStatusTransition BillingStatus.ACTIVE BillingStatus.SUSPENDED).isOk = false ∧
      (assertValidStatusTransition BillingStatus.SUSPENDED BillingStatus.DUE).isOk = false := by
  decide

-- ============================================================================
-- BILLING STATUS ASSERTIONS (billing-primitives.ts)
-- ============================================================================

/-- Function `assertBillingActive`: the database lookup is abstracted, the argument is
the account resolved by `getBillingAccount` (possibly `none`). No account ⇒
return the null account without throwing (fail open); SUSPENDED ⇒ throw
`BILLING_SUSPENDED`; DUE ⇒ throw `BILLING_DUE`; otherwise return the account. -/
def assertBillingActive (account : Option BillingAccount) :
    Except BillingError (Option BillingAccount) :=
  match account with
  | none => .ok none
  | some a =>
    if a.billingStatus = BillingStatus.SUSPENDED then
      .error ⟨.BILLING_SUSPENDED,
        "Your account has been suspended due to an unpaid invoice. Please update your payment method to restore access.",
        some a.id, some a.billingStatus⟩
    else if a.billingStatus = BillingStatus.DUE then
      .error ⟨.BILLING_DUE,
        "Your account has an unpaid invoice. Please pay to avoid service interruption.",
        some a.id, some a.billingStatus⟩
    else
      .ok (some a)

/-- Function `assertBillingNotSuspended`: no account ⇒ return `none` without throwing;
SUSPENDED ⇒ throw `BILLING_SUSPENDED`; otherwise (ACTIVE or DUE) return the
account. -/
def assertBillingNotSuspended (account : Option BillingAccount) :
    Except BillingError (Option BillingAccount) :=
  match account with
  | none => .ok none
  | some a =>
    if a.billingStatus = BillingStatus.SUSPENDED then
      .error ⟨.BILLING_SUSPENDED,
        "Your account has been suspended due to an unpaid invoice. Please update your payment method to restore access.",
        some a.id, some a.billingStatus⟩
    else
      .ok (some a)

/-- Claim C3: `assertBillingActive` throws `BILLING_SUSPENDED` iff the
resolved account is SUSPENDED and `BILLING_DUE` iff it is DUE, and returns
the account when ACTIVE; `assertBillingNotSuspended` throws
`BILLING_SUSPENDED` iff the resolved account is SUSPENDED and otherwise
returns the account (DUE allowed); with no resolved account both return
without throwing. -/
theorem billing_status_assertions_spec :
    ∀ a : BillingAccount,
      (errCodeOf (assertBillingActive (some a)) = some .BILLING_SUSPENDED ↔
        a.billingStatus = .SUSPENDED) ∧
      (errCodeOf (assertBillingActive (some a)) = some .BILLING_DUE ↔
        a.billingStatus = .DUE) ∧
      (a.billingStatus = .ACTIVE → assertBillingActive (some a) = .ok (some a)) ∧
      (errCodeOf (assertBillingNotSuspended (some a)) = some .BILLING_SUSPENDED ↔
        a.billingStatus = .SUSPENDED) ∧
      (a.billingStatus ≠ .SUSPENDED → assertBillingNotSuspended (some a) = .ok (some a)) ∧
      assertBillingActive none = .ok none ∧
      assertBillingNotSuspended none = .ok none := by
  intro a
  rcases h : a.billingStatus <;>
    simp [assertBillingActive, assertBillingNotSuspended, errCodeOf, h]

/-- Witness for C3 at a concrete ACTIVE account: hypotheses discharged at
`billingStatus = ACTIVE`. -/
theorem billing_status_assertions_spec_witness :
    assertBillingActive
        (some ⟨"acct1", .ACTIVE, 0, 0, false, none, none⟩) =
      .ok (some ⟨"acct1", .ACTIVE, 0, 0, false, none, none⟩) :=
  (billing_status_assertions_spec ⟨"acct1", .ACTIVE, 0, 0, false, none, none⟩).2.2.1 rfl

-- ============================================================================
-- USAGE WRITE GUARD (billing-primitives.ts, assertCanWriteUsage)
-- ============================================================================

/-- Function `assertCanWriteUsage`: first `assertBillingNotSuspended`; if no account,
allowed; if the cycle is locked, throw `BILLING_CYCLE_LOCKED`; otherwise
allowed with the account. -/
def assertCanWriteUsage (account : Option BillingAccount) :
    Except BillingError (Option BillingAccount × Bool) := do
  let resolved ← assertBillingNotSuspended account
  match resolved with
  | none => pure (none, true)
  | some a =>
    if a.isBillingCycleLocked then
      throw ⟨.BILLING_CYCLE_LOCKED,
        "Billing cycle is locked. Late usage will be recorded in the next cycle.",
        some a.id, none⟩
    else
      pure (some a, true)

/-- Claim C4: `assertCanWriteUsage` first applies `assertBillingNotSuspended`
(propagating its error unchanged), then throws `BILLING_CYCLE_LOCKED` when
the resolved account has `isBillingCycleLocked`; with no resolved account it
returns `(none, true)` without throwing; otherwise it returns the account
with allowed = true. -/
theorem assertCanWriteUsage_spec :
    ∀ a : BillingAccount,
      (assertCanWriteUsage none = .ok (none, true)) ∧
      (∀ e : BillingError, assertBillingNotSuspended (some a) = .error e →
        assertCanWriteUsage (some a) = .error e) ∧
      (a.billingStatus ≠ .SUSPENDED → a.isBillingCycleLocked = true →
        errCodeOf (assertCanWriteUsage (some a)) = some .BILLING_CYCLE_LOCKED) ∧
      (a.billingStatus ≠ .SUSPENDED → a.isBillingCycleLocked = false →
        assertCanWriteUsage (some a) = .ok (some a, true)) := by
  intro a
  refine ⟨rfl, ?_, ?_, ?_⟩
  · intro e he
    simp [assertCanWriteUsage, he, Bind.bind, Except.bind]
  · intro hs hl
    simp [assertCanWriteUsage, assertBillingNotSuspended, hs, hl,
      Bind.bind, Except.bind, errCodeOf, throw, throwThe, MonadExceptOf.throw]
  · intro hs hl
    simp [assertCanWriteUsage, assertBillingNotSuspended, hs, hl,
      Bind.bind, Except.bind, pure, Except.pure]

/-- Witness for C4 at a concrete unlocked ACTIVE account. -/
theorem assertCanWriteUsage_spec_witness :
    assertCanWriteUsage
        (some ⟨"acct1", .ACTIVE, 0, 0, false, none, none⟩) =
      .ok (some ⟨"acct1", .ACTIVE, 0, 0, false, none, none⟩, true) :=
  (assertCanWriteUsage_spec ⟨"acct1", .ACTIVE, 0, 0, false, none, none⟩).2.2.2
    (by simp) rfl

-- ============================================================================
-- LATE EVENT ADJUSTMENT (billing-primitives.ts, adjustEventForLockedCycle)
-- ============================================================================

/-- Result of `adjustEventForLockedCycle`. -/
structure AdjustResult where
  timestamp : Int
  wasAdjusted : Bool
  adjustReason : Option String
deriving DecidableEq, Repr

/-- Function `adjustEventForLockedCycle(eventTimestamp, account)`: the implicit clock
read (`new Date()`) is the explicit argument `now`. No account ⇒ pass
through; locked cycle and event before `billingCycleStart` ⇒ move to cycle
start; event after `billingCycleEnd` ⇒ move to now; otherwise unchanged. -/
def adjustEventForLockedCycle (eventTimestamp : Int) (now : Int)
    (account : Option BillingAccount) : AdjustResult :=
  match account with
  | none => ⟨eventTimestamp, false, none⟩
  | some a =>
    if a.isBillingCycleLocked = true ∧ eventTimestamp < a.billingCycleStart then
      ⟨a.billingCycleStart, true,
        some s!"Late event from {toString eventTimestamp} adjusted to cycle start"⟩
    else if eventTimestamp > a.billingCycleEnd then
      ⟨now, true,
        some s!"Future event from {toString eventTimestamp} adjusted to now"⟩
    else
      ⟨eventTimestamp, false, none⟩

/-- Claim C5: `adjustEventForLockedCycle` never throws (it is a total
function here) and: no account ⇒ unchanged, not adjusted; locked cycle and
event before cycle start ⇒ exactly cycle start, adjusted; otherwise event
after cycle end ⇒ now, adjusted; otherwise unchanged, not adjusted. -/
theorem adjustEventForLockedCycle_spec :
    ∀ (ev now : Int) (a : BillingAccount),
      ((adjustEventForLockedCycle ev now none).timestamp = ev ∧
        (adjustEventForLockedCycle ev now none).wasAdjusted = false) ∧
      (a.isBillingCycleLocked = true → ev < a.billingCycleStart →
        adjustEventForLockedCycle ev now (some a) =
          ⟨a.billingCycleStart, true,
            some s!"Late event from {toString ev} adjusted to cycle start"⟩) ∧
      (¬ (a.isBillingCycleLocked = true ∧ ev < a.billingCycleStart) →
        ev > a.billingCycleEnd →
        adjustEventForLockedCycle ev now (some a) =
          ⟨now, true, some s!"Future event from {toString ev} adjusted to now"⟩) ∧
      (¬ (a.isBillingCycleLocked = true ∧ ev < a.billingCycleStart) →
        ¬ ev > a.billingCycleEnd →
        adjustEventForLockedCycle ev now (some a) = ⟨ev, false, none⟩) := by
  intro ev now a
  refine ⟨⟨rfl, rfl⟩, ?_, ?_, ?_⟩
  · intro hl hlt
    simp [adjustEventForLockedCycle, hl, hlt]
  · intro hn hgt
    simp [adjustEventForLockedCycle, hn, hgt]
  · intro hn hngt
    simp [adjustEventForLockedCycle, hn, hngt]

/-- Witness for C5: a locked account with cycle start 100, event at 50
adjusts to 100. -/
theorem adjustEventForLockedCycle_spec_witness :
    adjustEventForLockedCycle 50 777 (some ⟨"acct1", .ACTIVE, 100, 200, true, some 90, none⟩) =
      ⟨100, true, some s!"Late event from {toString (50 : Int)} adjusted to cycle start"⟩ :=
  (adjustEventForLockedCycle_spec 50 777
    ⟨"acct1", .ACTIVE, 100, 200, true, some 90, none⟩).2.1 rfl (by decide)

-- ============================================================================
-- BILLING CYCLE LOCKING (billing-primitives.ts, lockBillingCycle)
-- ============================================================================

/-- Result of `lockBillingCycle` / `LockResult`. -/
structure LockResult where
  success : Bool
  alreadyLocked : Bool
  lockedAt : Option Int
  error : Option String
deriving DecidableEq, Repr

/-- Function `lockBillingCycle(accountId)`, sequential (no interleaving writer). The
store state for the one account id involved is an `Option BillingAccount`
(`none` models a missing document, whose read throws and is caught). The
clock read producing `lockTimestamp` is the explicit argument `t`. Steps:
read; if already locked return `alreadyLocked` with the existing timestamp;
otherwise write the lock fields, re-read, and verify the stored timestamp is
ours (compare-and-verify); the verification read here returns the state just
written since no other writer interleaves. -/
def lockBillingCycle (t : Int) (store : Option BillingAccount) :
    LockResult × Option BillingAccount :=
  match store with
  | none =>
    (⟨false, false, none, some "Document not found"⟩, none)
  | some account =>
    if account.isBillingCycleLocked = true then
      (⟨false, true, account.billingCycleLockedAt, none⟩, some account)
    else
      let written := { account with
        isBillingCycleLocked := true, billingCycleLockedAt := some t }
      let verifyAccount := written
      if verifyAccount.billingCycleLockedAt ≠ some t then
        (⟨false, true, verifyAccount.billingCycleLockedAt, none⟩, some verifyAccount)
      else
        (⟨true, false, some t, none⟩, some written)

/-- Claim C2: starting from an existing unlocked account, two sequential
calls of `lockBillingCycle` (no interleaving writer) yield
`{success := true, alreadyLocked := false}` with the timestamp `t1` of the first call
`t1`, then `{success := false, alreadyLocked := true}` whose `lockedAt`
equals the `lockedAt` of the first call. -/
theorem lockBillingCycle_twice (t1 t2 : Int) (a : BillingAccount)
    (hunlocked : a.isBillingCycleLocked = false) :
    (lockBillingCycle t1 (some a)).1 = ⟨true, false, some t1, none⟩ ∧
    (lockBillingCycle t2 (lockBillingCycle t1 (some a)).2).1 =
      ⟨false, true, some t1, none⟩ ∧
    (lockBillingCycle t2 (lockBillingCycle t1 (some a)).2).1.lockedAt =
      (lockBillingCycle t1 (some a)).1.lockedAt := by
  simp [lockBillingCycle, hunlocked]

/-- Witness for C2 at a concrete unlocked account. -/
theorem lockBillingCycle_twice_witness :
    (lockBillingCycle 10 (some ⟨"acct1", .ACTIVE, 0, 100, false, none, none⟩)).1 =
      ⟨true, false, some 10, none⟩ ∧
    (lockBillingCycle 20
        (lockBillingCycle 10 (some ⟨"acct1", .ACTIVE, 0, 100, false, none, none⟩)).2).1 =
      ⟨false, true, some 10, none⟩ ∧
    (lockBillingCycle 20
        (lockBillingCycle 10 (some ⟨"acct1", .ACTIVE, 0, 100, false, none, none⟩)).2).1.lockedAt =
      (lockBillingCycle 10 (some ⟨"acct1", .ACTIVE, 0, 100, false, none, none⟩)).1.lockedAt :=
  lockBillingCycle_twice 10 20 ⟨"acct1", .ACTIVE, 0, 100, false, none, none⟩ rfl

-- ============================================================================
-- NEAR-SUSPENSION WARNING DETECTION (billing-primitives.ts)
-- ============================================================================

/-- Constant `NEAR_SUSPENSION_THRESHOLD_HOURS = 48`. -/
def NEAR_SUSPENSION_THRESHOLD_HOURS : ℚ := 48

/-- Warning state levels. -/
inductive WarningState where
  | NORMAL
  | WARNING
  | CRITICAL
  | SUSPENDED
deriving DecidableEq, Repr

/-- Record `AccountWarningState` of the warning result. -/
structure AccountWarningState where
  state : WarningState
  hoursRemaining : Option Int
  gracePeriodEnd : Option Int
  message : Option String
deriving DecidableEq, Repr

/-- The `hoursRemaining` computation inside `getAccountWarningState`:
`Math.max(0, (gracePeriodEnd.getTime() - now.getTime()) / (1000 * 60 * 60))`. -/
def hoursRemaining (now gracePeriodEnd : Int) : ℚ :=
  max 0 (((gracePeriodEnd - now : Int) : ℚ) / (1000 * 60 * 60))

/-- Function `getAccountWarningState(account)`, with the clock read made explicit as
`now`. SUSPENDED ⇒ SUSPENDED; DUE with a grace period end set ⇒ CRITICAL
when at most 12 hours remain (0 reported when expired), WARNING otherwise;
anything else ⇒ NORMAL. -/
def getAccountWarningState (now : Int) (account : Option BillingAccount) :
    AccountWarningState :=
  match account with
  | none => ⟨.NORMAL, none, none, none⟩
  | some a =>
    if a.billingStatus = BillingStatus.SUSPENDED then
      ⟨.SUSPENDED, none, none,
        some "Your account is suspended. Please update your payment method to restore access."⟩
    else if a.billingStatus = BillingStatus.DUE then
      match a.gracePeriodEnd with
      | none => ⟨.NORMAL, none, none, none⟩
      | some g =>
        let hrs := hoursRemaining now g
        if hrs ≤ 0 then
          ⟨.CRITICAL, some 0, some g,
            some "Your grace period has expired. Your account will be suspended shortly."⟩
        else if hrs ≤ 12 then
          ⟨.CRITICAL, some (Rat.ceil hrs), some g,
            some s!"URGENT: Your account will be suspended in {toString (Rat.ceil hrs)} hours. Please pay your invoice immediately."⟩
        else if hrs ≤ NEAR_SUSPENSION_THRESHOLD_HOURS then
          ⟨.WARNING, some (Rat.ceil hrs), some g,
            some s!"Your account has an unpaid invoice. You have {toString (Rat.ceil hrs)} hours before suspension."⟩
        else
          ⟨.WARNING, some (Rat.ceil hrs), some g,
            some "Your account has an unpaid invoice. Please pay to avoid service interruption."⟩
    else ⟨.NORMAL, none, none, none⟩

/-- Helper: case analysis of `getAccountWarningState` for DUE accounts with a
grace deadline. -/
lemma warningState_due_cases (now g : Int) (a : BillingAccount)
    (hd : a.billingStatus = .DUE) (hg : a.gracePeriodEnd = some g) :
    ((getAccountWarningState now (some a)).state = .CRITICAL ↔
      hoursRemaining now g ≤ 12) ∧
    ((getAccountWarningState now (some a)).state = .WARNING ↔
      12 < hoursRemaining now g) ∧
    (hoursRemaining now g ≤ 0 →
      (getAccountWarningState now (some a)).hoursRemaining = some 0) := by
  have hstate : (getAccountWarningState now (some a)).state =
      if hoursRemaining now g ≤ 12 then WarningState.CRITICAL
      else WarningState.WARNING := by
    simp [getAccountWarningState, hd, hg, NEAR_SUSPENSION_THRESHOLD_HOURS]
    split_ifs with h0 h12 h48 <;> first | rfl | linarith
  refine ⟨?_, ?_, ?_⟩
  · rw [hstate]
    split_ifs with h
    · exact iff_of_true rfl h
    · exact iff_of_false (by simp) h
  · rw [hstate]
    split_ifs with h
    · exact iff_of_false (by simp) (not_lt.mpr h)
    · exact iff_of_true rfl (not_le.mp h)
  · intro h0
    simp [getAccountWarningState, hd, hg, h0]

/-- Claim C6: `getAccountWarningState` depends only on
`(billingStatus, gracePeriodEnd, now)`; SUSPENDED gives state SUSPENDED;
DUE with a grace deadline gives CRITICAL iff at most 12 hours remain
(an expired grace period reports `hoursRemaining = 0`) and WARNING iff more
than 12 remain — in particular `gracePeriodEnd = now + 13h` gives WARNING
and `gracePeriodEnd = now + 12h` gives CRITICAL; ACTIVE or no account gives
NORMAL. -/
theorem getAccountWarningState_spec :
    ∀ (now g : Int) (a b : BillingAccount),
      (a.billingStatus = b.billingStatus → a.gracePeriodEnd = b.gracePeriodEnd →
        getAccountWarningState now (some a) = getAccountWarningState now (some b)) ∧
      (a.billingStatus = .SUSPENDED →
        (getAccountWarningState now (some a)).state = .SUSPENDED) ∧
      (a.billingStatus = .DUE → a.gracePeriodEnd = some g →
        (((getAccountWarningState now (some a)).state = .CRITICAL ↔
            hoursRemaining now g ≤ 12) ∧
          ((getAccountWarningState now (some a)).state = .WARNING ↔
            12 < hoursRemaining now g) ∧
          (hoursRemaining now g ≤ 0 →
            (getAccountWarningState now (some a)).hoursRemaining = some 0))) ∧
      (a.billingStatus = .DUE → a.gracePeriodEnd = some (now + 13 * 3600000) →
        (getAccountWarningState now (some a)).state = .WARNING) ∧
      (a.billingStatus = .DUE → a.gracePeriodEnd = some (now + 12 * 3600000) →
        (getAccountWarningState now (some a)).state = .CRITICAL) ∧
      (a.billingStatus = .ACTIVE →
        getAccountWarningState now (some a) = ⟨.NORMAL, none, none, none⟩) ∧
      (getAccountWarningState now none = ⟨.NORMAL, none, none, none⟩) := by
  intro now g a b
  have hr13 : hoursRemaining now (now + 13 * 3600000) = 13 := by
    unfold hoursRemaining
    push_cast
    rw [max_eq_right] <;> norm_num
  have hr12 : hoursRemaining now (now + 12 * 3600000) = 12 := by
    unfold hoursRemaining
    push_cast
    rw [max_eq_right] <;> norm_num
  refine ⟨?_, ?_, warningState_due_cases now g a, ?_, ?_, ?_, rfl⟩
  · intro hbs hgp
    simp [getAccountWarningState, hbs, hgp]
  · intro hs
    simp [getAccountWarningState, hs]
  · intro hd hg
    exact ((warningState_due_cases now _ a hd hg).2.1).2 (by rw [hr13]; norm_num)
  · intro hd hg
    exact ((warningState_due_cases now _ a hd hg).1).2 (by rw [hr12])
  · intro ha
    simp [getAccountWarningState, ha]

/-- Witness for C6 at a concrete DUE account with grace deadline 13 hours
ahead of `now = 0`: state WARNING. -/
theorem getAccountWarningState_spec_witness :
    (getAccountWarningState 0
        (some ⟨"acct1", .DUE, 0, 100, false, none, some 46800000⟩)).state =
      .WARNING :=
  (getAccountWarningState_spec 0 46800000
      ⟨"acct1", .DUE, 0, 100, false, none, some 46800000⟩
      ⟨"acct1", .DUE, 0, 100, false, none, some 46800000⟩).2.2.2.1 rfl (by norm_num)

/-- Claim C10: a DUE account with no `gracePeriodEnd` yields state NORMAL —
no WARNING or CRITICAL banner is derived despite the arrears. -/
theorem getAccountWarningState_due_no_grace (now : Int) (a : BillingAccount)
    (hd : a.billingStatus = .DUE) (hg : a.gracePeriodEnd = none) :
    getAccountWarningState now (some a) = ⟨.NORMAL, none, none, none⟩ := by
  simp [getAccountWarningState, hd, hg]

/-- Witness for C10 at a concrete DUE account with unset grace deadline. -/
theorem getAccountWarningState_due_no_grace_witness :
    getAccountWarningState 0 (some ⟨"acct1", .DUE, 0, 100, false, none, none⟩) =
      ⟨.NORMAL, none, none, none⟩ :=
  getAccountWarningState_due_no_grace 0
    ⟨"acct1", .DUE, 0, 100, false, none, none⟩ rfl rfl

-- ============================================================================
-- USAGE EVENTS AND AGGREGATIONS (features/usage/types, invariants.ts)
-- ============================================================================

/-- Usage resource types. -/
inductive ResourceType where
  | traffic
  | storage
  | compute
deriving DecidableEq, Repr

/-- A usage event document (the fields this subsystem reads). -/
structure UsageEvent where
  workspaceId : String
  resourceType : ResourceType
  units : ℚ
  weightedUnits : Option ℚ
  timestamp : Int
deriving DecidableEq, Repr

/-- Model of `Math.abs` on the rational model of JS numbers. -/
def ratAbs (q : ℚ) : ℚ :=
  if q < 0 then -q else q

/-- Lemma: `ratAbs` agrees with the mathematical absolute value. -/
lemma ratAbs_eq_abs (q : ℚ) : ratAbs q = |q| := by
  unfold ratAbs
  split_ifs with h
  · exact (abs_of_neg h).symm
  · exact (abs_of_nonneg (not_lt.mp h)).symm

/-- The JS expression `event.weightedUnits || event.units`: the weighted
value when present and nonzero (0 and a missing field are both falsy),
otherwise the raw units. -/
def jsOrUnits (weightedUnits : Option ℚ) (units : ℚ) : ℚ :=
  match weightedUnits with
  | some w => if w = 0 then units else w
  | none => units

/-- Constant `1024 * 1024 * 1024`, the byte-to-GiB divisor. -/
def GiB : ℚ := 1024 * 1024 * 1024

/-- A usage aggregation document. The `period` string `YYYY-MM` is
represented by the two instants the code derives from it:
`periodStart` (the first of the month, inclusive) and `periodEnd`
(the first of the next month, exclusive via `Query.lessThan`). -/
structure UsageAggregation where
  workspaceId : String
  periodStart : Int
  periodEnd : Int
  trafficTotalGB : ℚ
  storageAvgGB : ℚ
  computeTotalUnits : ℚ
deriving DecidableEq, Repr

/-- Result of `assertAggregationMatchesEvents`. -/
structure ReconcileResult where
  matchesEvents : Bool
  diffTrafficGB : ℚ
  diffStorageGB : ℚ
  diffComputeUnits : ℚ
deriving DecidableEq, Repr

/-- The event query of `assertAggregationMatchesEvents`: events of the
aggregation workspace whose timestamp is in `[periodStart, periodEnd)`. -/
def aggregationEvents (events : List UsageEvent) (agg : UsageAggregation) :
    List UsageEvent :=
  events.filter (fun e =>
    e.workspaceId == agg.workspaceId &&
    decide (agg.periodStart ≤ e.timestamp) &&
    decide (e.timestamp < agg.periodEnd))

/-- The loop body of `assertAggregationMatchesEvents`: the `switch` on
`event.resourceType` accumulating `(trafficBytes, storageBytes, computeUnits)`. -/
def accumulateEvent (acc : ℚ × ℚ × ℚ) (e : UsageEvent) : ℚ × ℚ × ℚ :=
  match e.resourceType with
  | .traffic => (acc.1 + e.units, acc.2.1, acc.2.2)
  | .storage => (acc.1, acc.2.1 + e.units, acc.2.2)
  | .compute => (acc.1, acc.2.1, acc.2.2 + jsOrUnits e.weightedUnits e.units)

/-- Function `assertAggregationMatchesEvents(aggregationId, tolerancePercent)`:
recompute the three totals from the period events, take per-metric
absolute differences against the stored aggregation, and compare each
against `(storedValue || 1) * tolerancePercent`. -/
def assertAggregationMatchesEvents (events : List UsageEvent)
    (agg : UsageAggregation) (tolerancePercent : ℚ) : ReconcileResult :=
  let docs := aggregationEvents events agg
  let totals := docs.foldl accumulateEvent ((0 : ℚ), (0 : ℚ), (0 : ℚ))
  let expectedTrafficGB := totals.1 / GiB
  let expectedStorageGB := totals.2.1 / GiB
  let dT := ratAbs (agg.trafficTotalGB - expectedTrafficGB)
  let dS := ratAbs (agg.storageAvgGB - expectedStorageGB)
  let dC := ratAbs (agg.computeTotalUnits - totals.2.2)
  let maxT := (if agg.trafficTotalGB = 0 then 1 else agg.trafficTotalGB) * tolerancePercent
  let maxS := (if agg.storageAvgGB = 0 then 1 else agg.storageAvgGB) * tolerancePercent
  let maxC := (if agg.computeTotalUnits = 0 then 1 else agg.computeTotalUnits) * tolerancePercent
  ⟨decide (dT ≤ maxT) && decide (dS ≤ maxS) && decide (dC ≤ maxC), dT, dS, dC⟩

/-- The default `tolerancePercent = 0.01` (1%). -/
def defaultTolerancePercent : ℚ := 1 / 100

/-- Recomputed traffic total in GiB: direct sum over the period events. -/
def recomputedTrafficGB (events : List UsageEvent) (agg : UsageAggregation) : ℚ :=
  (((aggregationEvents events agg).filter
      (fun e => e.resourceType == ResourceType.traffic)).map UsageEvent.units).sum / GiB

/-- Recomputed storage total in GiB: direct sum over the period events. -/
def recomputedStorageGB (events : List UsageEvent) (agg : UsageAggregation) : ℚ :=
  (((aggregationEvents events agg).filter
      (fun e => e.resourceType == ResourceType.storage)).map UsageEvent.units).sum / GiB

/-- Recomputed compute total: direct sum over the period events. -/
def recomputedComputeUnits (events : List UsageEvent) (agg : UsageAggregation) : ℚ :=
  (((aggregationEvents events agg).filter
      (fun e => e.resourceType == ResourceType.compute)).map
    (fun e => jsOrUnits e.weightedUnits e.units)).sum

/-- The matching criterion exactly as the spec words it: for each metric,
the absolute difference between the stored value and the recomputed value
must not exceed `storedValue × tolerance`. -/
def specAggregationMatches (events : List UsageEvent) (agg : UsageAggregation)
    (tolerancePercent : ℚ) : Prop :=
  ratAbs (agg.trafficTotalGB - recomputedTrafficGB events agg) ≤
      agg.trafficTotalGB * tolerancePercent ∧
  ratAbs (agg.storageAvgGB - recomputedStorageGB events agg) ≤
      agg.storageAvgGB * tolerancePercent ∧
  ratAbs (agg.computeTotalUnits - recomputedComputeUnits events agg) ≤
      agg.computeTotalUnits * tolerancePercent

/-- Helper: the accumulation loop computes the three per-resource sums. -/
lemma accumulateEvent_foldl (docs : List UsageEvent) :
    ∀ t s c : ℚ,
      docs.foldl accumulateEvent (t, s, c) =
        (t + ((docs.filter (fun e => e.resourceType == ResourceType.traffic)).map
            UsageEvent.units).sum,
         s + ((docs.filter (fun e => e.resourceType == ResourceType.storage)).map
            UsageEvent.units).sum,
         c + ((docs.filter (fun e => e.resourceType == ResourceType.compute)).map
            (fun e => jsOrUnits e.weightedUnits e.units)).sum) := by
  induction docs with
  | nil => intro t s c; simp
  | cons e rest ih =>
    intro t s c
    rcases he : e.resourceType <;>
      simp [List.foldl_cons, accumulateEvent, he, ih] <;> ring

/-- Counterexample to C7: an aggregation whose stored `trafficTotalGB` is 0
while one traffic event of 5368709 bytes (about 0.005 GiB) exists in the
period. The code substitutes 1 for the zero stored value, so the 0.005 GiB
difference is within `1 × 1% = 0.01` and `matches = true`; the claim
criterion `diff ≤ storedValue × tolerance = 0` fails. -/
theorem assertAggregationMatchesEvents_claim_counterexample :
    (assertAggregationMatchesEvents
        [⟨"w", .traffic, 5368709, none, 10⟩]
        ⟨"w", 0, 100, 0, 0, 0⟩ defaultTolerancePercent).matchesEvents = true ∧
    ¬ specAggregationMatches
        [⟨"w", .traffic, 5368709, none, 10⟩]
        ⟨"w", 0, 100, 0, 0, 0⟩ defaultTolerancePercent := by
  constructor
  · norm_num [assertAggregationMatchesEvents, aggregationEvents, accumulateEvent,
      List.foldl, GiB, ratAbs, defaultTolerancePercent]
  · intro h
    have h1 := h.1
    norm_num [recomputedTrafficGB, aggregationEvents, GiB, ratAbs,
      defaultTolerancePercent] at h1

/-- Claim C7 as amended: `assertAggregationMatchesEvents` returns
`matches = true` iff, for each metric, the absolute difference between the
stored and recomputed values does not exceed `m × tolerance`, where `m` is
the stored value when it is nonzero and 1 when it is zero (the code falls
back to 1 for a zero stored value via `storedValue || 1`). -/
theorem assertAggregationMatchesEvents_amended :
    ∀ (events : List UsageEvent) (agg : UsageAggregation) (tolerancePercent : ℚ),
      (assertAggregationMatchesEvents events agg tolerancePercent).matchesEvents = true ↔
        (ratAbs (agg.trafficTotalGB - recomputedTrafficGB events agg) ≤
            (if agg.trafficTotalGB = 0 then 1 else agg.trafficTotalGB) * tolerancePercent ∧
         ratAbs (agg.storageAvgGB - recomputedStorageGB events agg) ≤
            (if agg.storageAvgGB = 0 then 1 else agg.storageAvgGB) * tolerancePercent ∧
         ratAbs (agg.computeTotalUnits - recomputedComputeUnits events agg) ≤
            (if agg.computeTotalUnits = 0 then 1 else agg.computeTotalUnits) * tolerancePercent) := by
  intro events agg tolerancePercent
  simp only [assertAggregationMatchesEvents,
    accumulateEvent_foldl (aggregationEvents events agg) 0 0 0, zero_add,
    recomputedTrafficGB, recomputedStorageGB, recomputedComputeUnits,
    Bool.and_eq_true, decide_eq_true_eq]
  tauto

-- ============================================================================
-- CURRENT MONTH USAGE (alert-evaluation-job.ts, getCurrentMonthUsage)
-- ============================================================================

/-- One day in milliseconds. -/
def dayMs : Int := 86400000

/-- The loop body of `getCurrentMonthUsage`: compute adds
`weightedUnits || units`, other resource types add raw units. -/
def monthStep (resourceType : ResourceType) (total : ℚ) (e : UsageEvent) : ℚ :=
  if resourceType = ResourceType.compute then
    total + jsOrUnits e.weightedUnits e.units
  else
    total + e.units

/-- Function `getCurrentMonthUsage(workspaceId, resourceType)`. The two query bounds
the code derives from the clock are explicit arguments: `startOfMonth` is
`new Date(year, month, 1)` (first of the month) and `endOfMonth` is
`new Date(year, month + 1, 0)` — midnight at the START of the last day of
the month — used as an inclusive upper bound (`Query.lessThanEqual`).
Matching events of the workspace and resource type are summed and byte
totals are converted to GiB for traffic and storage. -/
def getCurrentMonthUsage (startOfMonth endOfMonth : Int)
    (events : List UsageEvent) (workspaceId : String)
    (resourceType : ResourceType) : ℚ :=
  let docs := events.filter (fun e =>
    e.workspaceId == workspaceId && e.resourceType == resourceType &&
    decide (startOfMonth ≤ e.timestamp) && decide (e.timestamp ≤ endOfMonth))
  let total := docs.foldl (monthStep resourceType) 0
  if resourceType = ResourceType.traffic ∨ resourceType = ResourceType.storage then
    total / GiB
  else total

/-- Per-event usage contribution as the claim words it: `weightedUnits`
when present (with the falsy-zero fallback of the JS `||`) for compute,
raw units otherwise. -/
def usageContribution (r : ResourceType) (e : UsageEvent) : ℚ :=
  if r = ResourceType.compute then jsOrUnits e.weightedUnits e.units else e.units

/-- The monthly usage exactly as the claim words it: the sum over ALL of
the events of the calendar month for the workspace and resource type — timestamps
in `[monthStart, nextMonthStart)` — with byte sums converted to GiB. -/
def specCalendarMonthUsage (monthStart nextMonthStart : Int)
    (events : List UsageEvent) (workspaceId : String) (r : ResourceType) : ℚ :=
  let docs := events.filter (fun e =>
    e.workspaceId == workspaceId && e.resourceType == r &&
    decide (monthStart ≤ e.timestamp) && decide (e.timestamp < nextMonthStart))
  let raw := (docs.map (usageContribution r)).sum
  if r = ResourceType.traffic ∨ r = ResourceType.storage then raw / GiB else raw

/-- The sum `getCurrentMonthUsage` actually computes: same contributions,
but only over events with timestamp in `[startOfMonth, endOfMonth]` where
`endOfMonth` is the start (not the end) of the last day of the month. -/
def specWindowUsage (startOfMonth endOfMonth : Int)
    (events : List UsageEvent) (workspaceId : String) (r : ResourceType) : ℚ :=
  let docs := events.filter (fun e =>
    e.workspaceId == workspaceId && e.resourceType == r &&
    decide (startOfMonth ≤ e.timestamp) && decide (e.timestamp ≤ endOfMonth))
  let raw := (docs.map (usageContribution r)).sum
  if r = ResourceType.traffic ∨ r = ResourceType.storage then raw / GiB else raw

/-- Counterexample to C8: a 31-day month starting at instant 0, so the next
month starts at `31 * dayMs` and the upper bound of the code
(`new Date(year, month + 1, 0)`, the start of the last day) is `30 * dayMs`.
A compute event of 5 units at noon of the last day (`30 * dayMs + 43200000`)
belongs to the calendar month, but `getCurrentMonthUsage` returns 0 while
the calendar-month sum is 5. -/
theorem getCurrentMonthUsage_claim_counterexample :
    getCurrentMonthUsage 0 (30 * dayMs)
        [⟨"w", .compute, 5, none, 30 * dayMs + 43200000⟩] "w" .compute = 0 ∧
    specCalendarMonthUsage 0 (31 * dayMs)
        [⟨"w", .compute, 5, none, 30 * dayMs + 43200000⟩] "w" .compute = 5 := by
  constructor <;>
    norm_num [getCurrentMonthUsage, specCalendarMonthUsage, dayMs,
      usageContribution, monthStep, jsOrUnits, List.foldl] <;>
    rintro (h | h) <;> exact absurd h (by decide)

/-- Helper: the accumulation loop of `getCurrentMonthUsage` computes the sum
of per-event contributions. -/
lemma monthStep_foldl (r : ResourceType) (docs : List UsageEvent) :
    ∀ total : ℚ,
      docs.foldl (monthStep r) total = total + (docs.map (usageContribution r)).sum := by
  induction docs with
  | nil => intro total; simp
  | cons e rest ih =>
    intro total
    by_cases hr : r = ResourceType.compute
    · subst hr
      simp [monthStep, usageContribution, ih, add_assoc, add_comm, add_left_comm]
    · simp [monthStep, usageContribution, hr, ih, add_assoc, add_comm, add_left_comm]

/-- Claim C8 as amended: `getCurrentMonthUsage` returns the sum over the
usage events of the workspace and resource type whose timestamps lie in
`[startOfMonth, endOfMonth]` — where `endOfMonth` is midnight at the start
of the last day of the month, so events later on the last day are excluded —
using `weightedUnits || units` for COMPUTE and byte sums divided by 1024³
for TRAFFIC and STORAGE. -/
theorem getCurrentMonthUsage_amended :
    ∀ (startOfMonth endOfMonth : Int) (events : List UsageEvent)
      (workspaceId : String) (r : ResourceType),
      getCurrentMonthUsage startOfMonth endOfMonth events workspaceId r =
        specWindowUsage startOfMonth endOfMonth events workspaceId r := by
  intro startOfMonth endOfMonth events workspaceId r
  simp only [getCurrentMonthUsage, specWindowUsage, monthStep_foldl, zero_add]

-- ============================================================================
-- ALERT EVALUATION (alert-evaluation-job.ts, evaluateAlert)
-- ============================================================================

/-- Alert delivery channels. -/
inductive AlertType where
  | in_app
  | webhook
  | email
deriving DecidableEq, Repr

/-- A usage alert document. -/
structure UsageAlert where
  id : String
  workspaceId : String
  resourceType : ResourceType
  threshold : ℚ
  alertType : AlertType
  webhookUrl : Option String
  isEnabled : Bool
  lastTriggeredAt : Option Int
deriving DecidableEq, Repr

/-- Result record `AlertEvaluationResult`. -/
structure AlertEvaluationResult where
  alertId : String
  workspaceId : String
  resourceType : ResourceType
  threshold : ℚ
  currentUsage : ℚ
  triggered : Bool
  notificationSent : Bool
  error : Option String
deriving DecidableEq, Repr

/-- Side effects of one alert evaluation: in-app notification documents
created, outbound webhook POSTs sent, and the value written to
`lastTriggeredAt` when the update was performed. -/
structure AlertEffects where
  inAppNotifications : Nat
  webhookPosts : Nat
  lastTriggeredAtUpdate : Option Int
deriving DecidableEq, Repr

/-- Dispatch switch of `evaluateAlert`: returns
`(notificationSent, in-app docs created, webhook POSTs sent)`. The store
create of `sendInAppNotification` succeeds iff `createOk`; the webhook POST
of `sendWebhookNotification` happens only when a URL is configured and
reports success iff `webhookOk`; email falls back to in-app. -/
def dispatchAlert (createOk webhookOk : Bool) (alert : UsageAlert) :
    Bool × Nat × Nat :=
  match alert.alertType with
  | .in_app => (createOk, if createOk then 1 else 0, 0)
  | .webhook =>
    match alert.webhookUrl with
    | none => (false, 0, 0)
    | some _ => (webhookOk, 0, 1)
  | .email => (createOk, if createOk then 1 else 0, 0)

/-- Function `evaluateAlert(alert)`. The billing lookup for the workspace is
abstracted as `account`; the clock is abstracted as the month bounds of
`getCurrentMonthUsage` and `now` (the `lastTriggeredAt` stamp); store and
network outcomes are the oracles `createOk` and `webhookOk`. Suspended
account ⇒ early return with an explanatory error; else compute current
usage, and when it reaches the threshold dispatch on the channel and stamp
`lastTriggeredAt` only if dispatch reported success. -/
def evaluateAlert (startOfMonth endOfMonth now : Int)
    (events : List UsageEvent) (account : Option BillingAccount)
    (createOk webhookOk : Bool) (alert : UsageAlert) :
    AlertEvaluationResult × AlertEffects :=
  let base : AlertEvaluationResult :=
    ⟨alert.id, alert.workspaceId, alert.resourceType, alert.threshold,
      0, false, false, none⟩
  if account.any (fun a => a.billingStatus == BillingStatus.SUSPENDED) then
    ({ base with error := some "Account suspended - skipping alert evaluation" },
     ⟨0, 0, none⟩)
  else
    let currentUsage := getCurrentMonthUsage startOfMonth endOfMonth events
        alert.workspaceId alert.resourceType
    if alert.threshold ≤ currentUsage then
      let d := dispatchAlert createOk webhookOk alert
      ({ base with
          currentUsage := currentUsage,
          triggered := true,
          notificationSent := d.1 },
       ⟨d.2.1, d.2.2, if d.1 then some now else none⟩)
    else
      ({ base with currentUsage := currentUsage }, ⟨0, 0, none⟩)

/-- Claim C9: when the workspace resolves to a SUSPENDED billing account,
`evaluateAlert` returns `triggered = false` and `notificationSent = false`
with an explanatory error, regardless of the actual usage versus the
threshold, creates no notification, sends no webhook POST, and does not
update `lastTriggeredAt`. -/
theorem evaluateAlert_suspended_skips
    (startOfMonth endOfMonth now : Int) (events : List UsageEvent)
    (a : BillingAccount) (createOk webhookOk : Bool) (alert : UsageAlert)
    (hs : a.billingStatus = .SUSPENDED) :
    (evaluateAlert startOfMonth endOfMonth now events (some a)
        createOk webhookOk alert).1.triggered = false ∧
    (evaluateAlert startOfMonth endOfMonth now events (some a)
        createOk webhookOk alert).1.notificationSent = false ∧
    (evaluateAlert startOfMonth endOfMonth now events (some a)
        createOk webhookOk alert).1.error =
      some "Account suspended - skipping alert evaluation" ∧
    (evaluateAlert startOfMonth endOfMonth now events (some a)
        createOk webhookOk alert).2 = ⟨0, 0, none⟩ := by
  simp [evaluateAlert, Option.any, hs]

/-- Witness for C9 at a suspended account and an alert whose usage (5 units
of compute at timestamp 10 in a window threshold 1) well exceeds the
threshold: evaluation still reports not triggered. -/
theorem evaluateAlert_suspended_skips_witness :
    (evaluateAlert 0 100 50 [⟨"w", .compute, 5, none, 10⟩]
        (some ⟨"acct1", .SUSPENDED, 0, 100, false, none, none⟩) true true
        ⟨"al1", "w", .compute, 1, .in_app, none, true, none⟩).1.triggered = false ∧
    (evaluateAlert 0 100 50 [⟨"w", .compute, 5, none, 10⟩]
        (some ⟨"acct1", .SUSPENDED, 0, 100, false, none, none⟩) true true
        ⟨"al1", "w", .compute, 1, .in_app, none, true, none⟩).2 = ⟨0, 0, none⟩ :=
  ⟨(evaluateAlert_suspended_skips 0 100 50 [⟨"w", .compute, 5, none, 10⟩]
      ⟨"acct1", .SUSPENDED, 0, 100, false, none, none⟩ true true
      ⟨"al1", "w", .compute, 1, .in_app, none, true, none⟩ rfl).1,
   (evaluateAlert_suspended_skips 0 100 50 [⟨"w", .compute, 5, none, 10⟩]
      ⟨"acct1", .SUSPENDED, 0, 100, false, none, none⟩ true true
      ⟨"al1", "w", .compute, 1, .in_app, none, true, none⟩ rfl).2.2.2⟩

end Fairlx
